import Mathlib

/-!
Shallow embedding of `sc2shp.py` (jonnyhuck/storage_connect_parser).

The script's single function `parse_data` is a linear pipeline:
path validation → JSON load → per-packet expansion into DataFrames →
`concat` → `to_datetime` on the timestamp column → GeoDataFrame with point
geometry → optional per-user summary report → optional GeoPackage export.

Modelling choices:
* Python `float` values arising from the coordinate strings are modelled
  exactly as decimal numbers `PyFloat` (an integer mantissa and a power-of-ten
  scale); `PyFloat.toQ` gives the rational value.  The model of `float(...)`
  (`pyFloat`) covers sign, decimal point and scientific-exponent forms and
  whitespace stripping; `int(...)` (`pyInt`) covers sign and digits.
* A JSON packet is a record of optional fields: `none` models an absent key,
  so a field access on `none` is a `KeyError`.
* Exceptions are modelled with `Except PyErr`; `PyErr` distinguishes
  `KeyError`, `ValueError` (numeric coercion, `concat` on an empty list,
  unparseable timestamps) and fiona's `DriverIOError`.
* `to_datetime(..., infer_datetime_format=True)` is a library call whose
  inference we do not reimplement; the pipeline is parameterised by an
  arbitrary inference function `inferTs : String → Option Nat` (`none` =
  the string cannot be inferred, which makes `to_datetime` raise).
* pandas `groupby` sorts the group keys (default `sort=True`), modelled by an
  insertion sort on code points; `sort_values(['N_Logs'], ascending=False)`
  is modelled after pandas `nargsort`: an ascending argsort followed by
  reversal of the indexer (numpy's introsort degenerates to a stable
  insertion sort on arrays below its cutoff, as here for small summaries).
* `merge(..., how="inner", on='user_id')` preserves the order of the left
  keys (pandas documented behaviour), modelled by a lookup into the right
  table for each left row in order.
-/

/-- Python error kinds relevant to `sc2shp.py`. -/
inductive PyErr where
  | keyError : PyErr
  | valueError : PyErr
  | driverIOErr : PyErr
deriving DecidableEq

instance {ε α : Type} [DecidableEq ε] [DecidableEq α] : DecidableEq (Except ε α) := fun a b =>
  match a, b with
  | .ok x, .ok y =>
      if h : x = y then .isTrue (by rw [h]) else .isFalse (fun hh => h (Except.ok.inj hh))
  | .error x, .error y =>
      if h : x = y then .isTrue (by rw [h]) else .isFalse (fun hh => h (Except.error.inj hh))
  | .ok _, .error _ => .isFalse (fun hh => Except.noConfusion hh)
  | .error _, .ok _ => .isFalse (fun hh => Except.noConfusion hh)

/-- Exact decimal value `num / 10 ^ scale`: the model of the Python floats
produced by coercing the coordinate strings of this data set. -/
structure PyFloat where
  num : Int
  scale : Nat
deriving DecidableEq

/-- Rational value of a `PyFloat`. -/
def PyFloat.toQ (x : PyFloat) : ℚ := (x.num : ℚ) / 10 ^ x.scale

/-- Value of a string of decimal digits (most significant first). -/
def digitsToNat (cs : List Char) : Nat := cs.foldl (fun a c => 10 * a + (c.toNat - 48)) 0

/-- Every character is a decimal digit. -/
def isDigits (cs : List Char) : Bool := cs.all (·.isDigit)

/-- Strip leading and trailing whitespace, as Python `float`/`int` do. -/
def trimChars (cs : List Char) : List Char :=
  ((cs.dropWhile fun c => c = ' ' ∨ c = '\t' ∨ c = '\n' ∨ c = '\r').reverse.dropWhile
    fun c => c = ' ' ∨ c = '\t' ∨ c = '\n' ∨ c = '\r').reverse

/-- Split an optional leading `+`/`-` sign from a numeric literal. -/
def splitSign : List Char → Int × List Char
  | '+' :: rest => (1, rest)
  | '-' :: rest => (-1, rest)
  | cs => (1, cs)

/-- Mantissa of a Python float literal: `digits`, `digits.digits`, `.digits`
or `digits.` (at least one digit overall). -/
def parseMantissa (cs : List Char) : Option PyFloat :=
  match List.splitOn '.' cs with
  | [ip] => if !ip.isEmpty && isDigits ip then some ⟨digitsToNat ip, 0⟩ else none
  | [ip, fp] =>
      if (!ip.isEmpty || !fp.isEmpty) && isDigits ip && isDigits fp then
        some ⟨digitsToNat (ip ++ fp), fp.length⟩
      else none
  | _ => none

/-- Signed decimal integer (exponent part of a float literal). -/
def parseExpPart (cs : List Char) : Option Int :=
  let (sign, rest) := splitSign cs
  if !rest.isEmpty && isDigits rest then some (sign * digitsToNat rest) else none

/-- Apply a power-of-ten exponent to an exact decimal. -/
def applyExp (x : PyFloat) (e : Int) : PyFloat :=
  if 0 ≤ e then ⟨x.num * 10 ^ e.toNat, x.scale⟩ else ⟨x.num, x.scale + (-e).toNat⟩

/-- Model of Python `float(s)` on decimal literals: optional surrounding
whitespace, optional sign, mantissa, optional `e`/`E` exponent.
(`inf`/`nan` and digit-group underscores are outside the data domain and
unmodelled.)  `none` models a raised `ValueError`. -/
def pyFloat (s : String) : Option PyFloat :=
  let cs := (trimChars s.data).map Char.toLower
  let (sign, rest) := splitSign cs
  match List.splitOn 'e' rest with
  | [m] => (parseMantissa m).map fun x => ⟨sign * x.num, x.scale⟩
  | [m, ex] =>
      match parseMantissa m, parseExpPart ex with
      | some x, some e => some (applyExp ⟨sign * x.num, x.scale⟩ e)
      | _, _ => none
  | _ => none

/-- Model of Python `int(s)` (strict: sign and digits only, no fractional
part).  `none` models a raised `ValueError`. -/
def pyInt (s : String) : Option Int :=
  let cs := trimChars s.data
  let (sign, rest) := splitSign cs
  if !rest.isEmpty && isDigits rest then some (sign * digitsToNat rest) else none

/-- Source line 57/58: `n.replace(",", ".")` — every comma becomes a dot. -/
def commaToDot (s : String) : String := ⟨s.data.map fun c => if c = ',' then '.' else c⟩

/-- One JSON packet.  `none` models an absent key, whose access raises
`KeyError`. -/
structure Packet where
  user_id : Option String
  longitude : Option (List String)
  latitude : Option (List String)
  timestamp : Option (List String)
  accuracy : Option (List String)
  device_details : Option String

/-- One row of the per-packet DataFrame built on lines 55-62 (timestamp still
the raw string at this stage). -/
structure Record where
  user_id : String
  longitude : PyFloat
  latitude : PyFloat
  timestamp : String
  accuracy : Int
  device_details : String
deriving DecidableEq

/-- A dataset row after `to_datetime` (line 80): timestamp parsed to an
abstract date-time value, modelled as `Nat`. -/
structure PRecord where
  user_id : String
  longitude : PyFloat
  latitude : PyFloat
  timestamp : Nat
  accuracy : Int
  device_details : String
deriving DecidableEq

/-- A GeoDataFrame row (lines 83-86): the longitude/latitude columns are
dropped and replaced by the point geometry, an (x, y) = (longitude, latitude)
pair. -/
structure GeoRecord where
  user_id : String
  timestamp : Nat
  accuracy : Int
  device_details : String
  geometry : PyFloat × PyFloat
deriving DecidableEq

/-- `d[k]`: value of a key, raising `KeyError` when absent. -/
def getField {α : Type} : Option α → Except PyErr α
  | some x => .ok x
  | none => .error .keyError

/-- Line 57/58, one entry: `float(n.replace(",", "."))`. -/
def coerceFloat1 (n : String) : Option PyFloat := pyFloat (commaToDot n)

/-- Line 57/58, whole comprehension: first failing entry raises
`ValueError`. -/
def coerceFloats : List String → Except PyErr (List PyFloat)
  | [] => .ok []
  | n :: ns =>
      match coerceFloat1 n with
      | none => .error .valueError
      | some q => (coerceFloats ns).map (q :: ·)

/-- Line 60, whole comprehension: `[int(n) for n in d['accuracy']]`. -/
def coerceInts : List String → Except PyErr (List Int)
  | [] => .ok []
  | n :: ns =>
      match pyInt n with
      | none => .error .valueError
      | some k => (coerceInts ns).map (k :: ·)

/-- Row-wise content of the DataFrame of lines 55-62: the columns zipped
positionally (truncating at the shortest, though the DataFrame constructor
only accepts equal lengths). -/
def zipRecords (uid dev : String) :
    List PyFloat → List PyFloat → List String → List Int → List Record
  | lon :: lons, lat :: lats, ts :: tss, acc :: accs =>
      ⟨uid, lon, lat, ts, acc, dev⟩ :: zipRecords uid dev lons lats tss accs
  | _, _, _, _ => []

/-- Lines 54-62, the `try` body: evaluate the six column expressions in
source order (each key access may raise `KeyError`, each coercion
`ValueError`), then the DataFrame constructor, which raises `ValueError`
unless all columns have equal length.  The `user_id` and `device_details`
columns are replicated `len(d['longitude'])` times, so their length always
matches the longitude column. -/
def expand_packet (d : Packet) : Except PyErr (List Record) := do
  let uid ← getField d.user_id
  let lonRaw ← getField d.longitude
  let lons ← coerceFloats lonRaw
  let latRaw ← getField d.latitude
  let lats ← coerceFloats latRaw
  let tss ← getField d.timestamp
  let accRaw ← getField d.accuracy
  let accs ← coerceInts accRaw
  let dev ← getField d.device_details
  if lons.length = lats.length ∧ lats.length = tss.length ∧ tss.length = accs.length then
    pure (zipRecords uid dev lons lats tss accs)
  else throw .valueError

/-- All six keys present: exactly the condition under which the debug prints
of lines 66-71 run without raising a fresh `KeyError`. -/
def allFieldsPresent (d : Packet) : Bool :=
  d.user_id.isSome && d.longitude.isSome && d.latitude.isSome &&
    d.timestamp.isSome && d.accuracy.isSome && d.device_details.isSome

/-- Lines 50-73, the packet loop.  A packet that expands is appended to
`dfs`.  A failing packet is skipped (`continue`), except that when `debug`
is set the handler prints `d['user_id']`, …, `d['device_details']`
(lines 66-71) with no surrounding `try`: if any of the six keys is absent,
that print raises an uncaught `KeyError` and the whole run aborts. -/
def parseLoop (debug : Bool) : List Packet → Except PyErr (List (List Record))
  | [] => .ok []
  | d :: rest =>
      match expand_packet d with
      | .ok recs => (parseLoop debug rest).map (recs :: ·)
      | .error _ =>
          if debug && !allFieldsPresent d then .error .keyError
          else parseLoop debug rest

/-- Line 76: `concat(dfs)` raises `ValueError` on an empty list of frames,
otherwise concatenates in order. -/
def build_dataset (dfss : List (List Record)) : Except PyErr (List Record) :=
  if dfss.isEmpty then .error .valueError else .ok dfss.flatten

/-- Lines 50-77: packet loop followed by `concat`. -/
def runPipeline (debug : Bool) (packets : List Packet) : Except PyErr (List Record) :=
  (parseLoop debug packets).bind build_dataset

/-- Line 80: `to_datetime` over the timestamp column.  Column-wise and
all-or-nothing: any single uninferable string raises, no row is dropped. -/
def parseTimestamps (inferTs : String → Option Nat) :
    List Record → Except PyErr (List PRecord)
  | [] => .ok []
  | r :: rs =>
      match inferTs r.timestamp with
      | none => .error .valueError
      | some t =>
          (parseTimestamps inferTs rs).map
            (⟨r.user_id, r.longitude, r.latitude, t, r.accuracy, r.device_details⟩ :: ·)

/-- Lines 83-86: drop the longitude/latitude columns and attach
`Point(ll) for ll in zip(df.longitude, df.latitude)` — x = longitude,
y = latitude, row for row. -/
def attach_geometry (rows : List PRecord) : List GeoRecord :=
  rows.map fun r =>
    ⟨r.user_id, r.timestamp, r.accuracy, r.device_details, (r.longitude, r.latitude)⟩

/-- Lines 50-86: everything from the packet loop to the GeoDataFrame. -/
def fullRun (inferTs : String → Option Nat) (debug : Bool) (packets : List Packet) :
    Except PyErr (List GeoRecord) :=
  (runPipeline debug packets).bind fun df =>
    (parseTimestamps inferTs df).map attach_geometry

/-! Per-user summary, lines 90-98. -/

/-- Code-point comparison of strings, as Python compares `user_id` keys. -/
def strLe (a b : String) : Bool := go a.data b.data
where go : List Char → List Char → Bool
  | [], _ => true
  | _ :: _, [] => false
  | c :: cs, d :: ds =>
      if c.toNat < d.toNat then true
      else if d.toNat < c.toNat then false
      else go cs ds

/-- First occurrence of each element, in order of first appearance. -/
def firstDedup : List String → List String
  | [] => []
  | x :: xs => x :: (firstDedup xs).filter (· ≠ x)

/-- Insert into an ascending (by `strLe`) list. -/
def insertStr (x : String) : List String → List String
  | [] => [x]
  | y :: ys => if strLe x y then x :: y :: ys else y :: insertStr x ys

/-- Ascending sort by code points. -/
def sortStrAsc : List String → List String
  | [] => []
  | x :: xs => insertStr x (sortStrAsc xs)

/-- Group keys of `groupby(gdf['user_id'])`: the distinct users, sorted
ascending (pandas `groupby` default `sort=True`). -/
def sortedUsers (rows : List GeoRecord) : List String :=
  sortStrAsc (firstDedup (rows.map (·.user_id)))

/-- Rows of one user, in dataset order. -/
def userRows (u : String) (rows : List GeoRecord) : List GeoRecord :=
  rows.filter (·.user_id = u)

/-- One row of the left summary table: `agg(First_Log='min', Last_Log='max',
N_Logs='count')`. -/
structure AggRow where
  user_id : String
  first_log : Nat
  last_log : Nat
  n_logs : Nat
deriving DecidableEq

/-- A row of the printed summary after the `merge`. -/
structure SummaryRow where
  user_id : String
  first_log : Nat
  last_log : Nat
  n_logs : Nat
  device_details : String
deriving DecidableEq

/-- Line 93: `gdf['timestamp'].groupby(gdf['user_id']).agg(...)`, one row per
sorted group key. -/
def aggTable (rows : List GeoRecord) : List AggRow :=
  (sortedUsers rows).map fun u =>
    match (userRows u rows).map (·.timestamp) with
    | [] => ⟨u, 0, 0, 0⟩
    | t :: ts => ⟨u, ts.foldl min t, ts.foldl max t, (t :: ts).length⟩

/-- First `device_details` value of a user, in dataset order (`.first()`). -/
def deviceOf (rows : List GeoRecord) (u : String) : String :=
  match userRows u rows with
  | [] => ""
  | r :: _ => r.device_details

/-- Line 95: `gdf['device_details'].groupby(gdf['user_id']).first()` — first
device value of each sorted group key. -/
def deviceTable (rows : List GeoRecord) : List (String × String) :=
  (sortedUsers rows).map fun u => (u, deviceOf rows u)

/-- Stable ascending sort by `N_Logs`: the argsort underlying `sort_values`
(numpy's insertion sort keeps ties in input order). -/
def sortAggAsc (l : List AggRow) : List AggRow :=
  l.insertionSort fun a b => a.n_logs ≤ b.n_logs

/-- Line 94: `sort_values(['N_Logs'], ascending=False)`.  pandas `nargsort`
computes the ascending argsort and reverses the indexer for
`ascending=False`; with numpy's stable insertion sort on short arrays this
is the reverse of a stable ascending sort. -/
def sortAggDesc (l : List AggRow) : List AggRow := (sortAggAsc l).reverse

/-- Lines 92-97: the `merge(..., how="inner", on='user_id')` of the sorted
aggregate table with the first-device table; an inner merge preserves the
order of the left keys. -/
def summarize (rows : List GeoRecord) : List SummaryRow :=
  (sortAggDesc (aggTable rows)).filterMap fun a =>
    ((deviceTable rows).lookup a.user_id).map fun dev =>
      ⟨a.user_id, a.first_log, a.last_log, a.n_logs, dev⟩

/-! Process-level model: path validation, file loading, exit status. -/

/-- The parsed JSON document: `data['packets']`. -/
structure Document where
  packets : List Packet

/-- How a run of the script terminates: an explicit exit code, or an
uncaught exception (which the interpreter turns into a crash). -/
inductive RunExit where
  | code : Nat → RunExit
  | uncaught : PyErr → RunExit
deriving DecidableEq

/-- Line 112: `gdf.to_file(...)` may raise `DriverIOError`. -/
def exportResult (exportFails : Bool) : Except PyErr Unit :=
  if exportFails then .error .driverIOErr else .ok ()

/-- Lines 29-116, `parse_data` as invoked once per run.  `file` is `none`
when opening `in_path` raises `FileNotFoundError`, otherwise the parsed
document.  `exportFails` says whether `to_file` raises `DriverIOError`
(caught on lines 113-115, so never fatal).  Python slices `in_path[-5:]` and
`out_path[-5:]` are the last up-to-five characters, i.e. `takeRight 5`. -/
def parse_data (in_path out_path : String) (exportFlag _reportFlag debug : Bool)
    (file : Option Document) (inferTs : String → Option Nat)
    (exportFails : Bool) : RunExit :=
  if in_path.takeRight 5 ≠ ".json" then .code 1
  else if exportFlag ∧ out_path.takeRight 5 ≠ ".gpkg" then .code 1
  else
    match file with
    | none => .code 1
    | some doc =>
        match fullRun inferTs debug doc.packets with
        | .error e => .uncaught e
        | .ok _gdf =>
            if exportFlag then
              match exportResult exportFails with
              | .error _ => .code 0
              | .ok _ => .code 0
            else .code 0

/-! Concrete data used by counterexamples, bug demonstrations and witnesses. -/

/-- A well-formed packet with one fix. -/
def pGood1 : Packet :=
  ⟨some "u1", some ["1.5"], some ["2.5"], some ["2022-01-01"], some ["3"], some "d1"⟩

/-- A packet whose `latitude` key is absent (a `KeyError`-class failure). -/
def pNoLat : Packet :=
  ⟨some "u2", some ["4,5"], none, some ["2022-01-02"], some ["6"], some "d2"⟩

/-- Another well-formed packet with one fix. -/
def pGood2 : Packet :=
  ⟨some "u3", some ["7.5"], some ["8.5"], some ["2022-01-03"], some ["9"], some "d3"⟩

/-- A packet with all six keys present whose longitude entry fails `float`
coercion (a `ValueError`-class failure). -/
def pBadLon : Packet :=
  ⟨some "u4", some ["xy"], some ["1.0"], some ["2022-01-04"], some ["2"], some "d4"⟩

/-- The record `pGood1` expands to. -/
def recGood1 : Record := ⟨"u1", ⟨15, 1⟩, ⟨25, 1⟩, "2022-01-01", 3, "d1"⟩

/-- The record `pGood2` expands to. -/
def recGood2 : Record := ⟨"u3", ⟨75, 1⟩, ⟨85, 1⟩, "2022-01-03", 9, "d3"⟩

/-- A concrete timestamp-inference function: every string except `"bad"`
is inferable. -/
def tsProbe : String → Option Nat := fun s => if s = "bad" then none else some s.length

/-- `n` summary-stage rows for user `u` with device `d`. -/
def mkRows (u d : String) (n : Nat) : List GeoRecord :=
  (List.range n).map fun i => ⟨u, i, 0, d, (⟨0, 0⟩, ⟨0, 0⟩)⟩

/-- A single summary-stage row for user `"a"`. -/
def gRowA : GeoRecord := ⟨"a", 0, 0, "da", (⟨0, 0⟩, ⟨0, 0⟩)⟩

/-- A single summary-stage row for user `"b"`. -/
def gRowB : GeoRecord := ⟨"b", 0, 0, "db", (⟨0, 0⟩, ⟨0, 0⟩)⟩

/-! Helper lemmas. -/

@[simp] lemma getField_some {α : Type} (x : α) : getField (some x) = .ok x := rfl

@[simp] lemma getField_none {α : Type} : (getField (none : Option α)) = .error .keyError := rfl

@[simp] lemma except_ok_bind {ε α β : Type} (a : α) (f : α → Except ε β) :
    (Except.ok a : Except ε α) >>= f = f a := rfl

@[simp] lemma except_error_bind {ε α β : Type} (e : ε) (f : α → Except ε β) :
    (Except.error e : Except ε α) >>= f = .error e := rfl

@[simp] lemma except_map_ok {ε α β : Type} (f : α → β) (a : α) :
    (Except.ok a : Except ε α).map f = .ok (f a) := rfl

@[simp] lemma except_map_error {ε α β : Type} (f : α → β) (e : ε) :
    (Except.error e : Except ε α).map f = .error e := rfl

@[simp] lemma except_pure {ε α : Type} (a : α) : (pure a : Except ε α) = .ok a := rfl

@[simp] lemma except_bind_ok {ε α β : Type} (a : α) (f : α → Except ε β) :
    (Except.ok a : Except ε α).bind f = f a := rfl

@[simp] lemma except_bind_error {ε α β : Type} (e : ε) (f : α → Except ε β) :
    (Except.error e : Except ε α).bind f = .error e := rfl

@[simp] lemma except_toOption_ok {ε α : Type} (a : α) :
    (Except.ok a : Except ε α).toOption = some a := rfl

@[simp] lemma except_toOption_error {ε α : Type} (e : ε) :
    (Except.error e : Except ε α).toOption = none := rfl

/-! Claim theorems. -/

/-- C5: coordinate coercion replaces every comma in a longitude/latitude
string with a dot and then converts to float: `"53,47"` coerces to the float
value 53.47, and `"53.47"` coerces unchanged to 53.47.  The first conjuncts
evaluate the coercion on both strings (both yield the decimal 5347/10²,
whose rational value is 53.47); the `List.all` conjunct shows the
replacement removes every comma, and the final conjunct is the
replace-then-convert factoring itself. -/
theorem spec_c5 :
    commaToDot "53,47" = "53.47" ∧
    commaToDot "53.47" = "53.47" ∧
    coerceFloat1 "53,47" = some ⟨5347, 2⟩ ∧
    coerceFloat1 "53.47" = some ⟨5347, 2⟩ ∧
    PyFloat.toQ ⟨5347, 2⟩ = 53.47 ∧
    (∀ s : String, ((commaToDot s).data.all fun c => c ≠ ',') = true) ∧
    (∀ n : String, coerceFloat1 n = pyFloat (commaToDot n)) := by
  refine ⟨by decide, by decide, by decide, by decide, by norm_num [PyFloat.toQ], ?_, fun _ => rfl⟩
  intro s
  rw [List.all_eq_true]
  intro c hc
  simp only [commaToDot] at hc
  rcases List.mem_map.1 hc with ⟨a, _, ha⟩
  by_cases h' : a = ','
  · rw [if_pos h'] at ha
    subst ha
    decide
  · rw [if_neg h'] at ha
    subst ha
    simpa using h'

/-- C6: `attach_geometry` builds each row's point geometry purely from that
row's (longitude, latitude) pair in longitude-then-latitude axis order, and
the resulting `GeoRecord` rows carry only `user_id`, `timestamp`,
`accuracy`, `device_details` and `geometry` — the longitude and latitude
columns are dropped.  The closed conjuncts check the claim's concrete input
(-2.23, 53.47): the geometry is exactly (longitude, latitude), no axis
swap, and the decimals have rational values -2.23 and 53.47. -/
theorem spec_c6 :
    (∀ (rows : List PRecord) (i : Nat) (r : PRecord), rows[i]? = some r →
      (attach_geometry rows)[i]? =
        some ⟨r.user_id, r.timestamp, r.accuracy, r.device_details, (r.longitude, r.latitude)⟩) ∧
    (∀ rows : List PRecord, (attach_geometry rows).length = rows.length) ∧
    (PyFloat.toQ ⟨-223, 2⟩ = -2.23 ∧ PyFloat.toQ ⟨5347, 2⟩ = 53.47) ∧
    attach_geometry [⟨"u", ⟨-223, 2⟩, ⟨5347, 2⟩, 7, 5, "dev"⟩] =
      [⟨"u", 7, 5, "dev", (⟨-223, 2⟩, ⟨5347, 2⟩)⟩] := by
  refine ⟨?_, ?_, ⟨by norm_num [PyFloat.toQ], by norm_num [PyFloat.toQ]⟩, by decide⟩
  · intro rows i r h
    rw [attach_geometry, List.getElem?_map, h]
    rfl
  · intro rows
    rw [attach_geometry, List.length_map]

/-- Witness for C6: applied to the one-row dataset containing the claim's
concrete coordinates (-2.23, 53.47). -/
theorem spec_c6_witness :
    (attach_geometry [⟨"u", ⟨-223, 2⟩, ⟨5347, 2⟩, 7, 5, "dev"⟩])[0]? =
      some ⟨"u", 7, 5, "dev", (⟨-223, 2⟩, ⟨5347, 2⟩)⟩ :=
  spec_c6.1 [⟨"u", ⟨-223, 2⟩, ⟨5347, 2⟩, 7, 5, "dev"⟩] 0 ⟨"u", ⟨-223, 2⟩, ⟨5347, 2⟩, 7, 5, "dev"⟩ rfl

/-- C1 (code bug): the claim — a packet missing a required field yields zero
records and leaves other packets' records untouched — is the intended
behaviour, but with the debug flag set the `except` handler itself evaluates
`d['latitude']` (line 68) on the failing packet, raising an uncaught
`KeyError` that aborts the run, so the surrounding packets' records are
never produced.  With debug unset the loop behaves as claimed: the run with
the failing packet present yields exactly the records of the run with it
absent. -/
theorem spec_c1 :
    parseLoop true [pGood1, pNoLat, pGood2] = .error .keyError ∧
    parseLoop false [pGood1, pNoLat, pGood2] = .ok [[recGood1], [recGood2]] ∧
    parseLoop false [pGood1, pGood2] = .ok [[recGood1], [recGood2]] ∧
    expand_packet pNoLat = .error .keyError := by
  decide

/-- C3 (code bug): the claim says no exception propagates out of the packet
loop regardless of the debug flag, and that with debug set the error and all
six raw fields are printed.  With debug set and a packet whose `latitude`
key is absent, the diagnostic `print(d['latitude'])` raises an uncaught
`KeyError` (nothing catches it), so the claim fails; a coercion failure with
all six fields present is, by contrast, handled as claimed. -/
theorem spec_c3 :
    parseLoop true [pNoLat] = .error .keyError ∧
    allFieldsPresent pNoLat = false ∧
    parseLoop true [pBadLon] = .ok [] ∧
    allFieldsPresent pBadLon = true := by
  decide

lemma zipRecords_length (uid dev : String) :
    ∀ (lons lats : List PyFloat) (tss : List String) (accs : List Int),
    lons.length = lats.length → lats.length = tss.length → tss.length = accs.length →
    (zipRecords uid dev lons lats tss accs).length = lons.length := by
  intro lons
  induction lons with
  | nil =>
      intro lats tss accs _ _ _
      cases lats <;> cases tss <;> cases accs <;> rfl
  | cons lon lons ih =>
      intro lats tss accs h1 h2 h3
      cases lats with
      | nil => simp at h1
      | cons lat lats =>
          cases tss with
          | nil => simp at h2
          | cons ts tss =>
              cases accs with
              | nil => simp at h3
              | cons acc accs =>
                  simp only [zipRecords, List.length_cons]
                  rw [ih lats tss accs (by simpa using h1) (by simpa using h2) (by simpa using h3)]

lemma zipRecords_getElem (uid dev : String) :
    ∀ (lons lats : List PyFloat) (tss : List String) (accs : List Int) (i : Nat)
      (lonv latv : PyFloat) (tsv : String) (accv : Int),
    lons[i]? = some lonv → lats[i]? = some latv → tss[i]? = some tsv → accs[i]? = some accv →
    (zipRecords uid dev lons lats tss accs)[i]? = some ⟨uid, lonv, latv, tsv, accv, dev⟩ := by
  intro lons
  induction lons with
  | nil =>
      intro lats tss accs i lonv latv tsv accv h1 _ _ _
      simp at h1
  | cons lon lons ih =>
      intro lats tss accs i lonv latv tsv accv h1 h2 h3 h4
      cases lats with
      | nil => simp at h2
      | cons lat lats =>
          cases tss with
          | nil => simp at h3
          | cons ts tss =>
              cases accs with
              | nil => simp at h4
              | cons acc accs =>
                  cases i with
                  | zero =>
                      simp only [List.getElem?_cons_zero, Option.some.injEq] at h1 h2 h3 h4
                      subst h1 h2 h3 h4
                      simp only [zipRecords, List.getElem?_cons_zero]
                  | succ n =>
                      simp only [List.getElem?_cons_succ] at h1 h2 h3 h4
                      simpa only [zipRecords, List.getElem?_cons_succ] using
                        ih lats tss accs n lonv latv tsv accv h1 h2 h3 h4

/-- C2: a well-formed packet (all six fields present, all longitude/latitude
entries float-coercible, all accuracy entries int-coercible) whose four
sequences share length N expands to exactly N records, record i carrying the
packet's `user_id` and `device_details` together with the coerced longitude,
latitude and accuracy values and the raw timestamp string at position i. -/
theorem spec_c2 (uid dev : String) (lonRaw latRaw tsRaw accRaw : List String)
    (lons lats : List PyFloat) (accs : List Int) (N : Nat)
    (hlon : coerceFloats lonRaw = .ok lons)
    (hlat : coerceFloats latRaw = .ok lats)
    (hacc : coerceInts accRaw = .ok accs)
    (h1 : lons.length = N) (h2 : lats.length = N) (h3 : tsRaw.length = N)
    (h4 : accs.length = N) :
    ∃ recs : List Record,
      expand_packet ⟨some uid, some lonRaw, some latRaw, some tsRaw, some accRaw, some dev⟩ =
        .ok recs ∧
      recs.length = N ∧
      (∀ (i : Nat) (lonv latv : PyFloat) (tsv : String) (accv : Int),
        lons[i]? = some lonv → lats[i]? = some latv → tsRaw[i]? = some tsv →
        accs[i]? = some accv → recs[i]? = some ⟨uid, lonv, latv, tsv, accv, dev⟩) := by
  refine ⟨zipRecords uid dev lons lats tsRaw accs, ?_, ?_, ?_⟩
  · unfold expand_packet
    simp only [getField_some, except_ok_bind]
    rw [hlon, except_ok_bind, hlat, except_ok_bind, hacc, except_ok_bind,
      if_pos ⟨h1.trans h2.symm, h2.trans h3.symm, h3.trans h4.symm⟩]
    rfl
  · rw [zipRecords_length uid dev lons lats tsRaw accs (h1.trans h2.symm) (h2.trans h3.symm)
      (h3.trans h4.symm), h1]
  · intro i lonv latv tsv accv ha hb hc hd
    exact zipRecords_getElem uid dev lons lats tsRaw accs i lonv latv tsv accv ha hb hc hd

/-- Witness for C2: a concrete two-fix packet (mixed comma and dot decimal
separators, a trailing-dot literal, a negative accuracy). -/
theorem spec_c2_witness :
    ∃ recs : List Record,
      expand_packet ⟨some "u", some ["1.5", "2,5"], some ["0.5", "1."],
        some ["ts0", "ts1"], some ["3", "-4"], some "d"⟩ = .ok recs ∧
      recs.length = 2 ∧
      (∀ (i : Nat) (lonv latv : PyFloat) (tsv : String) (accv : Int),
        ([⟨15, 1⟩, ⟨25, 1⟩] : List PyFloat)[i]? = some lonv →
        ([⟨5, 1⟩, ⟨1, 0⟩] : List PyFloat)[i]? = some latv →
        (["ts0", "ts1"] : List String)[i]? = some tsv →
        ([3, -4] : List Int)[i]? = some accv →
        recs[i]? = some ⟨"u", lonv, latv, tsv, accv, "d"⟩) :=
  spec_c2 "u" "d" ["1.5", "2,5"] ["0.5", "1."] ["ts0", "ts1"] ["3", "-4"]
    [⟨15, 1⟩, ⟨25, 1⟩] [⟨5, 1⟩, ⟨1, 0⟩] [3, -4] 2
    (by decide) (by decide) (by decide) rfl rfl rfl rfl

lemma parseLoop_ok_filterMap (debug : Bool) :
    ∀ (packets : List Packet) (dfss : List (List Record)),
    parseLoop debug packets = .ok dfss →
    dfss = packets.filterMap fun d => (expand_packet d).toOption := by
  intro packets
  induction packets with
  | nil =>
      intro dfss h
      simp only [parseLoop] at h
      cases h
      rfl
  | cons d rest ih =>
      intro dfss h
      simp only [parseLoop] at h
      cases hd : expand_packet d with
      | ok recs =>
          rw [hd] at h
          cases hrest : parseLoop debug rest with
          | ok dfss' =>
              rw [hrest] at h
              simp only [except_map_ok, Except.ok.injEq] at h
              subst h
              simp only [List.filterMap_cons, hd, except_toOption_ok]
              rw [ih dfss' hrest]
          | error e =>
              rw [hrest] at h
              simp only [except_map_error] at h
              cases h
      | error e =>
          rw [hd] at h
          by_cases hdbg : (debug && !allFieldsPresent d) = true
          · rw [if_pos hdbg] at h
            cases h
          · rw [if_neg hdbg] at h
            simp only [List.filterMap_cons, hd, except_toOption_error]
            exact ih dfss h

/-- C4: a run whose accepted packets are P1 (expanding to R1) followed by P2
(expanding to R2) concatenates to exactly R1 ++ R2 — the first |R1| rows are
P1's expansion in order, immediately followed by P2's — and in general the
packet loop's output is the expansions of the accepted packets in packet
order, so concatenation preserves packet order and intra-packet row
order. -/
theorem spec_c4 (debug : Bool) (p1 p2 : Packet) (r1 r2 : List Record)
    (hp1 : expand_packet p1 = .ok r1) (hp2 : expand_packet p2 = .ok r2) :
    (runPipeline debug [p1, p2] = .ok (r1 ++ r2) ∧
      (r1 ++ r2).take r1.length = r1 ∧ (r1 ++ r2).drop r1.length = r2) ∧
    (∀ (packets : List Packet) (dfss : List (List Record)),
      parseLoop debug packets = .ok dfss →
      dfss = packets.filterMap fun d => (expand_packet d).toOption) := by
  constructor
  · have hloop : parseLoop debug [p1, p2] = .ok [r1, r2] := by
      simp only [parseLoop, hp1, hp2, except_map_ok]
    refine ⟨?_, List.take_left r1 r2, List.drop_left r1 r2⟩
    rw [runPipeline, hloop, except_bind_ok, build_dataset]
    simp
  · exact parseLoop_ok_filterMap debug

/-- Witness for C4: the two concrete packets `pGood1`, `pGood2`. -/
theorem spec_c4_witness :
    (runPipeline false [pGood1, pGood2] = .ok ([recGood1] ++ [recGood2]) ∧
      ([recGood1] ++ [recGood2]).take 1 = [recGood1] ∧
      ([recGood1] ++ [recGood2]).drop 1 = [recGood2]) ∧
    (∀ (packets : List Packet) (dfss : List (List Record)),
      parseLoop false packets = .ok dfss →
      dfss = packets.filterMap fun d => (expand_packet d).toOption) :=
  spec_c4 false pGood1 pGood2 [recGood1] [recGood2] (by decide) (by decide)

lemma parseLoop_all_rejected (debug : Bool) :
    ∀ packets : List Packet,
    (∀ d ∈ packets, ∃ e, expand_packet d = .error e) →
    parseLoop debug packets = .ok [] ∨ parseLoop debug packets = .error .keyError := by
  intro packets
  induction packets with
  | nil => intro _; left; rfl
  | cons d rest ih =>
      intro h
      rcases h d (List.mem_cons_self d rest) with ⟨e, he⟩
      have hrest := ih fun d' hd' => h d' (List.mem_cons_of_mem d hd')
      simp only [parseLoop, he]
      by_cases hdbg : (debug && !allFieldsPresent d) = true
      · rw [if_pos hdbg]
        right
        rfl
      · rw [if_neg hdbg]
        exact hrest

lemma parseLoop_all_rejected_nodebug :
    ∀ packets : List Packet,
    (∀ d ∈ packets, ∃ e, expand_packet d = .error e) →
    parseLoop false packets = .ok [] := by
  intro packets
  induction packets with
  | nil => intro _; rfl
  | cons d rest ih =>
      intro h
      rcases h d (List.mem_cons_self d rest) with ⟨e, he⟩
      simp only [parseLoop, he, Bool.false_and, Bool.false_eq_true, if_false]
      exact ih fun d' hd' => h d' (List.mem_cons_of_mem d hd')

/-- C10: when the packets list is empty, or every packet is rejected during
expansion, the run fails with an uncaught exception before any dataset
exists: the pipeline never returns a dataset (so no row count is printed and
neither the report nor the export stage is reached); when the loop itself
completes (debug unset), the raiser is exactly the `concat` step
(`ValueError`, line 76). -/
theorem spec_c10 (debug : Bool) (packets : List Packet) (inferTs : String → Option Nat)
    (h : packets = [] ∨ ∀ d ∈ packets, ∃ e, expand_packet d = .error e) :
    (∃ e, runPipeline debug packets = .error e ∧ fullRun inferTs debug packets = .error e) ∧
    (∀ rows, fullRun inferTs debug packets ≠ .ok rows) ∧
    (debug = false → runPipeline debug packets = .error .valueError) := by
  have hrej : ∀ d ∈ packets, ∃ e, expand_packet d = .error e := by
    rcases h with rfl | h
    · intro d hd
      cases hd
    · exact h
  have key : ∃ e, runPipeline debug packets = .error e ∧
      fullRun inferTs debug packets = .error e := by
    rcases parseLoop_all_rejected debug packets hrej with hok | herr
    · refine ⟨.valueError, ?_, ?_⟩
      · rw [runPipeline, hok, except_bind_ok]
        rfl
      · rw [fullRun, runPipeline, hok, except_bind_ok]
        rfl
    · refine ⟨.keyError, ?_, ?_⟩
      · rw [runPipeline, herr, except_bind_error]
      · rw [fullRun, runPipeline, herr, except_bind_error, except_bind_error]
  refine ⟨key, ?_, ?_⟩
  · intro rows hok
    rcases key with ⟨e, _, hf⟩
    rw [hf] at hok
    cases hok
  · intro hdbg
    subst hdbg
    rw [runPipeline, parseLoop_all_rejected_nodebug packets hrej, except_bind_ok]
    rfl

/-- Witness for C10: a run whose only packet is rejected for a bad longitude
entry. -/
theorem spec_c10_witness :
    (∃ e, runPipeline false [pBadLon] = .error e ∧
      fullRun tsProbe false [pBadLon] = .error e) ∧
    (∀ rows, fullRun tsProbe false [pBadLon] ≠ .ok rows) ∧
    (false = false → runPipeline false [pBadLon] = .error .valueError) :=
  spec_c10 false [pBadLon] tsProbe
    (Or.inr fun d hd => by
      rcases List.mem_singleton.1 hd with rfl
      exact ⟨.valueError, by decide⟩)

lemma parseTimestamps_error_of_mem (inferTs : String → Option Nat) :
    ∀ df : List Record, (∃ r ∈ df, inferTs r.timestamp = none) →
    parseTimestamps inferTs df = .error .valueError := by
  intro df
  induction df with
  | nil =>
      intro h
      rcases h with ⟨r, hr, _⟩
      cases hr
  | cons r rs ih =>
      intro h
      cases hr : inferTs r.timestamp with
      | none => simp only [parseTimestamps, hr]
      | some t =>
          rcases h with ⟨r', hr', hnone⟩
          rcases List.mem_cons.1 hr' with rfl | hmem
          · rw [hr] at hnone
            cases hnone
          · simp only [parseTimestamps, hr, ih ⟨r', hmem, hnone⟩, except_map_error]

lemma parseTimestamps_ok_of_all (inferTs : String → Option Nat) :
    ∀ df : List Record, (∀ r ∈ df, (inferTs r.timestamp).isSome) →
    ∃ out, parseTimestamps inferTs df = .ok out ∧ out.length = df.length := by
  intro df
  induction df with
  | nil => intro _; exact ⟨[], rfl, rfl⟩
  | cons r rs ih =>
      intro h
      cases hr : inferTs r.timestamp with
      | none =>
          have := h r (List.mem_cons_self r rs)
          rw [hr] at this
          cases this
      | some t =>
          rcases ih (fun r' hr' => h r' (List.mem_cons_of_mem r hr')) with ⟨out, hout, hlen⟩
          refine ⟨⟨r.user_id, r.longitude, r.latitude, t, r.accuracy, r.device_details⟩ :: out,
            ?_, by simp [hlen]⟩
          simp only [parseTimestamps, hr, hout, except_map_ok]

/-- C8: once the concatenated dataset exists, the bulk `to_datetime` step is
all-or-nothing: if any row's timestamp string cannot be inferred the step
raises (`ValueError`) and the raiser propagates uncaught, failing the whole
run; and if every row's timestamp is inferable, no per-row or per-packet
rejection happens — the spatial dataset keeps every row. -/
theorem spec_c8 (inferTs : String → Option Nat) (debug : Bool) (packets : List Packet)
    (df : List Record) (hdf : runPipeline debug packets = .ok df) :
    ((∃ r ∈ df, inferTs r.timestamp = none) →
      fullRun inferTs debug packets = .error .valueError) ∧
    ((∀ r ∈ df, (inferTs r.timestamp).isSome) →
      ∃ out, fullRun inferTs debug packets = .ok out ∧ out.length = df.length) := by
  constructor
  · intro h
    rw [fullRun, hdf, except_bind_ok, parseTimestamps_error_of_mem inferTs df h,
      except_map_error]
  · intro h
    rcases parseTimestamps_ok_of_all inferTs df h with ⟨out, hout, hlen⟩
    refine ⟨attach_geometry out, ?_, ?_⟩
    · rw [fullRun, hdf, except_bind_ok, hout, except_map_ok]
    · rw [attach_geometry, List.length_map, hlen]

/-- Witness for C8: with the concrete inference function `tsProbe`, the
one-packet dataset of `pGood1` (whose timestamp is inferable) passes the
stage with its single row intact. -/
theorem spec_c8_witness :
    ∃ out, fullRun tsProbe false [pGood1] = .ok out ∧ out.length = [recGood1].length :=
  (spec_c8 tsProbe false [pGood1] [recGood1] (by decide)).2 (by decide)

lemma parse_data_badIn (in_path out_path : String) (exportFlag reportFlag debug : Bool)
    (file : Option Document) (inferTs : String → Option Nat) (exportFails : Bool)
    (h : in_path.takeRight 5 ≠ ".json") :
    parse_data in_path out_path exportFlag reportFlag debug file inferTs exportFails =
      .code 1 := by
  unfold parse_data
  rw [if_pos h]

lemma parse_data_badOut (in_path out_path : String) (exportFlag reportFlag debug : Bool)
    (file : Option Document) (inferTs : String → Option Nat) (exportFails : Bool)
    (h1 : ¬ in_path.takeRight 5 ≠ ".json") (h2 : exportFlag ∧ out_path.takeRight 5 ≠ ".gpkg") :
    parse_data in_path out_path exportFlag reportFlag debug file inferTs exportFails =
      .code 1 := by
  unfold parse_data
  rw [if_neg h1, if_pos h2]

lemma parse_data_noFile (in_path out_path : String) (exportFlag reportFlag debug : Bool)
    (inferTs : String → Option Nat) (exportFails : Bool)
    (h1 : ¬ in_path.takeRight 5 ≠ ".json")
    (h2 : ¬ (exportFlag ∧ out_path.takeRight 5 ≠ ".gpkg")) :
    parse_data in_path out_path exportFlag reportFlag debug none inferTs exportFails =
      .code 1 := by
  unfold parse_data
  rw [if_neg h1, if_neg h2]

lemma parse_data_someFile (in_path out_path : String) (exportFlag reportFlag debug : Bool)
    (doc : Document) (inferTs : String → Option Nat) (exportFails : Bool)
    (h1 : ¬ in_path.takeRight 5 ≠ ".json")
    (h2 : ¬ (exportFlag ∧ out_path.takeRight 5 ≠ ".gpkg")) :
    parse_data in_path out_path exportFlag reportFlag debug (some doc) inferTs exportFails =
      match fullRun inferTs debug doc.packets with
      | .error e => .uncaught e
      | .ok _ => .code 0 := by
  unfold parse_data
  rw [if_neg h1, if_neg h2]
  dsimp only
  cases fullRun inferTs debug doc.packets with
  | error e => rfl
  | ok gdf =>
      by_cases he : exportFlag = true
      · simp only [if_pos he]
        cases exportResult exportFails <;> rfl
      · simp only [if_neg he]

/-- C7: the modelled process exits with status 1 exactly when the input path
does not end in `.json`, or export is requested and the output path does not
end in `.gpkg`, or the input file does not exist; it exits with status 0
exactly when the paths pass, the file exists and the pipeline completes —
regardless of whether the export write failed at the driver level (that
`DriverIOError` is caught on lines 113-115 and only reported).  A pipeline
exception is an uncaught crash, not an explicit `exit(1)`, so it falls under
neither exit code. -/
theorem spec_c7 (in_path out_path : String) (exportFlag reportFlag debug : Bool)
    (file : Option Document) (inferTs : String → Option Nat) (exportFails : Bool) :
    (parse_data in_path out_path exportFlag reportFlag debug file inferTs exportFails =
        .code 1 ↔
      (in_path.takeRight 5 ≠ ".json" ∨ (exportFlag ∧ out_path.takeRight 5 ≠ ".gpkg") ∨
        file = none)) ∧
    (parse_data in_path out_path exportFlag reportFlag debug file inferTs exportFails =
        .code 0 ↔
      (in_path.takeRight 5 = ".json" ∧ (exportFlag → out_path.takeRight 5 = ".gpkg") ∧
        ∃ doc, file = some doc ∧ ∃ g, fullRun inferTs debug doc.packets = .ok g)) := by
  by_cases h1 : in_path.takeRight 5 ≠ ".json"
  · rw [parse_data_badIn in_path out_path exportFlag reportFlag debug file inferTs
      exportFails h1]
    constructor
    · constructor
      · intro _
        exact Or.inl h1
      · intro _
        rfl
    · constructor
      · intro h
        cases h
      · rintro ⟨hj, -, -⟩
        exact absurd hj h1
  · by_cases h2 : exportFlag ∧ out_path.takeRight 5 ≠ ".gpkg"
    · rw [parse_data_badOut in_path out_path exportFlag reportFlag debug file inferTs
        exportFails h1 h2]
      constructor
      · constructor
        · intro _
          exact Or.inr (Or.inl h2)
        · intro _
          rfl
      · constructor
        · intro h
          cases h
        · rintro ⟨-, hg, -⟩
          exact absurd (hg h2.1) h2.2
    · have himpl : exportFlag → out_path.takeRight 5 = ".gpkg" := by
        intro he
        by_contra hng
        exact h2 ⟨he, hng⟩
      cases file with
      | none =>
          rw [parse_data_noFile in_path out_path exportFlag reportFlag debug inferTs
            exportFails h1 h2]
          constructor
          · constructor
            · intro _
              exact Or.inr (Or.inr rfl)
            · intro _
              rfl
          · constructor
            · intro h
              cases h
            · rintro ⟨-, -, doc, hdoc, -⟩
              cases hdoc
      | some doc =>
          rw [parse_data_someFile in_path out_path exportFlag reportFlag debug doc inferTs
            exportFails h1 h2]
          cases hrun : fullRun inferTs debug doc.packets with
          | error e =>
              constructor
              · constructor
                · intro h
                  cases h
                · rintro (hbad | hbad | hbad)
                  · exact absurd hbad h1
                  · exact absurd hbad h2
                  · cases hbad
              · constructor
                · intro h
                  cases h
                · rintro ⟨-, -, doc', hdoc', g, hg⟩
                  cases hdoc'
                  rw [hrun] at hg
                  cases hg
          | ok gdf =>
              constructor
              · constructor
                · intro h
                  cases h
                · rintro (hbad | hbad | hbad)
                  · exact absurd hbad h1
                  · exact absurd hbad h2
                  · cases hbad
              · constructor
                · intro _
                  exact ⟨not_not.1 h1, himpl, doc, rfl, gdf, hrun⟩
                · intro _
                  rfl

lemma sortAggAsc_sorted (l : List AggRow) :
    (sortAggAsc l).Pairwise fun a b => a.n_logs ≤ b.n_logs := by
  have ht : IsTotal AggRow fun a b => a.n_logs ≤ b.n_logs := ⟨fun a b => Nat.le_total _ _⟩
  have htr : IsTrans AggRow fun a b => a.n_logs ≤ b.n_logs :=
    ⟨fun a b c hab hbc => Nat.le_trans hab hbc⟩
  exact List.sorted_insertionSort _ l

lemma sortAggDesc_pairwise (l : List AggRow) :
    (sortAggDesc l).Pairwise fun a b => b.n_logs ≤ a.n_logs := by
  rw [sortAggDesc, List.pairwise_reverse]
  exact sortAggAsc_sorted l

lemma mem_sortAggDesc {a : AggRow} {l : List AggRow} (h : a ∈ sortAggDesc l) : a ∈ l := by
  rw [sortAggDesc, List.mem_reverse] at h
  exact (List.perm_insertionSort _ l).mem_iff.1 h

lemma aggTable_user_mem (rows : List GeoRecord) :
    ∀ a ∈ aggTable rows, a.user_id ∈ sortedUsers rows := by
  intro a ha
  rcases List.mem_map.1 ha with ⟨u, hu, heq⟩
  cases hl : (userRows u rows).map (·.timestamp) with
  | nil =>
      rw [hl] at heq
      rw [← heq]
      exact hu
  | cons t ts =>
      rw [hl] at heq
      rw [← heq]
      exact hu

lemma lookup_deviceTable (rows : List GeoRecord) :
    ∀ (l : List String) (u : String), u ∈ l →
    (l.map fun v => (v, deviceOf rows v)).lookup u = some (deviceOf rows u) := by
  intro l
  induction l with
  | nil =>
      intro u hu
      cases hu
  | cons v vs ih =>
      intro u hu
      by_cases h : u = v
      · subst h
        simp only [List.map_cons, List.lookup, beq_self_eq_true]
      · have hb : (u == v) = false := beq_false_of_ne h
        simp only [List.map_cons, List.lookup, hb]
        rcases List.mem_cons.1 hu with h' | h'
        · exact absurd h' h
        · exact ih u h'

lemma summarize_eq_map (rows : List GeoRecord) :
    summarize rows = (sortAggDesc (aggTable rows)).map fun a =>
      ⟨a.user_id, a.first_log, a.last_log, a.n_logs, deviceOf rows a.user_id⟩ := by
  rw [summarize]
  have : ∀ l : List AggRow, (∀ a ∈ l, a.user_id ∈ sortedUsers rows) →
      (l.filterMap fun a => ((deviceTable rows).lookup a.user_id).map fun dev =>
        (⟨a.user_id, a.first_log, a.last_log, a.n_logs, dev⟩ : SummaryRow)) =
      l.map fun a => ⟨a.user_id, a.first_log, a.last_log, a.n_logs, deviceOf rows a.user_id⟩ := by
    intro l
    induction l with
    | nil => intro _; rfl
    | cons a ls ih =>
        intro h
        have hlk : (deviceTable rows).lookup a.user_id = some (deviceOf rows a.user_id) := by
          rw [deviceTable]
          exact lookup_deviceTable rows (sortedUsers rows) a.user_id
            (h a (List.mem_cons_self a ls))
        rw [List.filterMap_cons, hlk]
        simp only [Option.map_some']
        rw [List.map_cons, ih fun a' ha' => h a' (List.mem_cons_of_mem a ha')]
  exact this (sortAggDesc (aggTable rows)) fun a ha =>
    aggTable_user_mem rows a (mem_sortAggDesc ha)

/-- C9 (corrected): the printed user summary is sorted by per-user record
count in descending order — for users A (5 records), B (12 records),
C (1 record) the output order is B, A, C — and the inner join on `user_id`
preserves the sorted left-table order row for row.  However, users with
EQUAL record counts do not keep their original group order: pandas
implements `ascending=False` by reversing an ascending argsort, so tied
users come out in reverse of the groupby (user_id-sorted) order. -/
theorem spec_c9 (rows : List GeoRecord) :
    ((summarize rows).Pairwise fun a b => b.n_logs ≤ a.n_logs) ∧
    ((summarize rows).map fun s => (⟨s.user_id, s.first_log, s.last_log, s.n_logs⟩ : AggRow)) =
      sortAggDesc (aggTable rows) ∧
    (summarize (mkRows "A" "dA" 5 ++ mkRows "B" "dB" 12 ++ mkRows "C" "dC" 1)).map
      (·.user_id) = ["B", "A", "C"] := by
  have hmap : ((summarize rows).map fun s =>
      (⟨s.user_id, s.first_log, s.last_log, s.n_logs⟩ : AggRow)) =
      sortAggDesc (aggTable rows) := by
    rw [summarize_eq_map, List.map_map]
    have : ((fun s : SummaryRow => (⟨s.user_id, s.first_log, s.last_log, s.n_logs⟩ : AggRow)) ∘
        fun a : AggRow => (⟨a.user_id, a.first_log, a.last_log, a.n_logs,
          deviceOf rows a.user_id⟩ : SummaryRow)) = id := by
      funext a
      rfl
    rw [this, List.map_id]
  refine ⟨?_, hmap, by decide⟩
  have hp := sortAggDesc_pairwise (aggTable rows)
  rw [← hmap] at hp
  exact (List.pairwise_map.1 hp : _)

/-- Counterexample to C9 as stated: two users `"a"` and `"b"`, one record
each (equal counts), appearing in the dataset and in the groupby output in
the order a, b — yet the summary lists them as b, a, so ties do NOT keep
their original group order. -/
theorem spec_c9_cex :
    sortedUsers [gRowA, gRowB] = ["a", "b"] ∧
    (aggTable [gRowA, gRowB]).map (·.n_logs) = [1, 1] ∧
    (summarize [gRowA, gRowB]).map (·.user_id) = ["b", "a"] ∧
    (["b", "a"] : List String) ≠ ["a", "b"] := by
  decide

/-- Witness for C7: a concrete run with valid paths, an existing one-packet
file and a failing export driver still exits 0. -/
theorem spec_c7_witness :
    parse_data "x.json" "y.gpkg" true true false (some ⟨[pGood1]⟩) tsProbe true = .code 0 :=
  (spec_c7 "x.json" "y.gpkg" true true false (some ⟨[pGood1]⟩) tsProbe true).2.2
    ⟨rfl, fun _ => rfl, ⟨[pGood1]⟩, rfl,
      [⟨"u1", 10, 3, "d1", (⟨15, 1⟩, ⟨25, 1⟩)⟩], by decide⟩

/-- Witness for C9: the claim's own A(5)/B(12)/C(1) example, via the
theorem. -/
theorem spec_c9_witness :
    (summarize (mkRows "A" "dA" 5 ++ mkRows "B" "dB" 12 ++ mkRows "C" "dC" 1)).map
      (·.user_id) = ["B", "A", "C"] :=
  (spec_c9 []).2.2
